import Mathlib

/-!
Verification of the tic-tac-toe multiplayer game server
(`tic-tak online/app.py`).

The development shallowly embeds the game engine (`TicTacToeGame`), the
stats notification (`update_stats`), and the Flask route handlers that
manage rooms, sessions and cleanup (`create_room`, `join_room`,
`leave_room`, `get_game_state`, session checks).  Python dictionaries are
modelled as association lists, Python list indexing (with negative
wrap-around and `IndexError`) is modelled explicitly, and a raised
exception is modelled as `none`.
-/

namespace TicTacToe

/-- Value stored in `TicTacToeGame.winner` while the game is finished:
Python stores either a player id (`0`/`1`) or the string `'draw'`;
the unfinished state `None` is modelled by `Option.none` at the use site. -/
inductive Winner where
  | player (id : Nat)
  | draw
deriving DecidableEq, Repr

/-- An entry of `TicTacToeGame.players`: `{'id': player_id, 'username': username}`. -/
structure Player where
  id : Nat
  username : String
deriving DecidableEq, Repr

/-- The `TicTacToeGame` instance state. -/
structure Game where
  board : List (List String)
  players : List Player
  current_player : Nat
  game_id : String
  winner : Option Winner
  game_over : Bool
deriving DecidableEq, Repr

/-- `TicTacToeGame.__init__`: empty 3x3 board, no players, player 0 to move. -/
def newGame (game_id : String) : Game :=
  { board := [["", "", ""], ["", "", ""], ["", "", ""]]
    players := []
    current_player := 0
    game_id := game_id
    winner := none
    game_over := false }

/-- Python list-index resolution for a list of length `len`: a negative
index `i` refers to position `len + i`; an index outside `[-len, len)`
raises `IndexError`, modelled as `none`. -/
def pyIdx (len : Nat) (i : Int) : Option Nat :=
  let j : Int := if i < 0 then i + len else i
  if 0 ≤ j ∧ j < (len : Int) then some j.toNat else none

/-- Cell read used by `check_winner` and the draw test, where indices are
always produced by `range(3)` and the board is well-formed, so the
defaults never fire. -/
def cellD (b : List (List String)) (i j : Nat) : String :=
  (((b.get? i).getD []).get? j).getD ""

/-- `TicTacToeGame.check_winner(symbol)`: rows and columns for
`i in range(3)`, then the two diagonals. -/
def check_winner (b : List (List String)) (symbol : String) : Bool :=
  ((List.range 3).any fun i =>
    ((List.range 3).all fun j => cellD b i j == symbol) ||
    ((List.range 3).all fun j => cellD b j i == symbol)) ||
  ((List.range 3).all fun i => cellD b i i == symbol) ||
  ((List.range 3).all fun i => cellD b i (2 - i) == symbol)

/-- `all(self.board[i][j] != '' for i in range(3) for j in range(3))`. -/
def boardFull (b : List (List String)) : Bool :=
  (List.range 3).all fun i => (List.range 3).all fun j => !(cellD b i j == "")

/-- One stats notification sent to `update_user_stats(username, result)`. -/
structure StatEvent where
  username : String
  result : String
deriving DecidableEq, Repr

/-- `TicTacToeGame.update_stats`: on a draw every player's identity is
credited a draw; otherwise each player is credited a win if their id
equals `winner` and a loss otherwise.  The result is the list of
notifications issued to the external stats store. -/
def update_stats (g : Game) : List StatEvent :=
  if g.winner = some .draw then
    g.players.map fun p => ⟨p.username, "draw"⟩
  else
    g.players.map fun p =>
      if g.winner = some (.player p.id) then ⟨p.username, "win"⟩
      else ⟨p.username, "loss"⟩

/-- `TicTacToeGame.make_move(player_id, row, col)`.  Returns `none` when
the Python code raises `IndexError`, otherwise `some (ok, g', events)`
where `ok` is the returned boolean, `g'` the game state after the call
and `events` the stats notifications issued during the call.

The validity check short-circuits exactly as the Python `or` does: a
finished game or a wrong turn is rejected before the board is indexed,
so those rejections never raise. -/
def make_move (g : Game) (player_id : Nat) (row col : Int) :
    Option (Bool × Game × List StatEvent) :=
  if g.winner.isSome || !(player_id == g.current_player) then
    some (false, g, [])
  else
    match pyIdx g.board.length row with
    | none => none
    | some i =>
      let rowList := (g.board.get? i).getD []
      match pyIdx rowList.length col with
      | none => none
      | some j =>
        if !((rowList.get? j).getD "" == "") then
          some (false, g, [])
        else
          let symbol := if player_id == 0 then "X" else "O"
          let board' := g.board.set i (rowList.set j symbol)
          if check_winner board' symbol then
            let g' := { g with board := board',
                               winner := some (.player player_id),
                               game_over := true }
            some (true, g', update_stats g')
          else if boardFull board' then
            let g' := { g with board := board',
                               winner := some .draw,
                               game_over := true }
            some (true, g', update_stats g')
          else
            some (true, { g with board := board',
                                 current_player := 1 - g.current_player }, [])

/-- `TicTacToeGame.add_player(username)`: appends `{'id': len(players),
'username': username}` while fewer than two players are bound, returning
the new id, otherwise returns `None`. -/
def add_player (g : Game) (username : String) : Game × Option Nat :=
  if g.players.length < 2 then
    let pid := g.players.length
    ({ g with players := g.players ++ [⟨pid, username⟩] }, some pid)
  else (g, none)

/-- A board the Python code can actually hold: three rows of three cells. -/
def wfBoard (b : List (List String)) : Prop :=
  b.length = 3 ∧ ∀ r ∈ b, r.length = 3

instance : DecidablePred wfBoard := fun b => by
  unfold wfBoard; infer_instance

/-! ### Python dictionaries as association lists -/

/-- `d[k]` lookup (`None`-free: `none` means the key is absent). -/
def dget? {α : Type} (d : List (String × α)) (k : String) : Option α :=
  (d.find? fun p => p.1 == k).map Prod.snd

/-- `d[k] = v`: updates the binding in place if the key is present,
otherwise appends it (Python dicts preserve insertion order). -/
def dset {α : Type} (d : List (String × α)) (k : String) (v : α) :
    List (String × α) :=
  if (d.find? fun p => p.1 == k).isSome then
    d.map fun p => if p.1 == k then (k, v) else p
  else d ++ [(k, v)]

/-- `del d[k]` (a no-op when the key is absent, used only behind
`k in d` guards or as such a guard's translation). -/
def ddel {α : Type} (d : List (String × α)) (k : String) :
    List (String × α) :=
  d.filter fun p => !(p.1 == k)

/-! ### Rooms and the shared server state -/

/-- A `rooms[room_id]` record. -/
structure Room where
  creator : String
  players : List String
  status : String
  created_at : String
deriving DecidableEq, Repr

/-- The module-level mutable dictionaries `games`, `rooms` and
`game_completion_times`.  Time is modelled as `Nat` ticks. -/
structure ServerState where
  games : List (String × Game)
  rooms : List (String × Room)
  game_completion_times : List (String × Nat)
deriving DecidableEq, Repr

/-- `create_room` (POST /create_room) past the login check.  The room id
comes from `uuid.uuid4()` and `created_at` from `datetime.now()`, both
external inputs here.  The handler unconditionally allocates a WAITING
room with the caller as sole member, creates the game and binds the
caller as player 0; it never fails once a username is in the session. -/
def create_room (username room_id created_at : String) (s : ServerState) :
    ServerState × String × Nat :=
  let room : Room :=
    { creator := username, players := [username], status := "waiting"
      created_at := created_at }
  let game := (add_player (newGame room_id) username).1
  ({ s with rooms := dset s.rooms room_id room
            games := dset s.games room_id game },
   room_id, 0)

/-- Outcome of `join_room` past the login check, naming the JSON error
messages: `roomNotFound` = "Комната не найдена", `roomNotWaiting` =
"Комната уже занята", `alreadyMember` = "Вы уже в этой комнате";
`success` carries `room_id` and `player_num` (the value returned by
`game.add_player`, which is `None` when the game already holds two
players). -/
inductive JoinResult where
  | roomNotFound
  | roomNotWaiting
  | alreadyMember
  | success (room_id : String) (player_num : Option Nat)
deriving DecidableEq, Repr

/-- `join_room` (GET /join_room/<room_id>) past the login check.  `none`
models the `KeyError` raised by `games[room_id]` when the room exists
but its game does not. -/
def join_room (username room_id : String) (s : ServerState) :
    Option (ServerState × JoinResult) :=
  match dget? s.rooms room_id with
  | none => some (s, .roomNotFound)
  | some room =>
    if !(room.status == "waiting") then some (s, .roomNotWaiting)
    else if room.players.contains username then some (s, .alreadyMember)
    else
      let room' := { room with players := room.players ++ [username]
                               status := "playing" }
      match dget? s.games room_id with
      | none => none
      | some game =>
        let gp := add_player game username
        some ({ s with rooms := dset s.rooms room_id room'
                       games := dset s.games room_id gp.1 },
              .success room_id gp.2)

/-- `leave_room` (POST /leave_room) past the login check; `room_id?` is
`session.get('room_id')`.  Removing the caller leaves the room WAITING
when one member remains and deletes the room and its game when none do;
the game's player slots are never touched. -/
def leave_room (username : String) (room_id? : Option String)
    (s : ServerState) : ServerState :=
  match room_id? with
  | none => s
  | some rid =>
    match dget? s.rooms rid with
    | none => s
    | some room =>
      if room.players.contains username then
        let players' := room.players.erase username
        if players'.length = 0 then
          { s with rooms := ddel s.rooms rid, games := ddel s.games rid }
        else if players'.length = 1 then
          let room' := { room with players := players', status := "waiting" }
          { s with rooms := dset s.rooms rid room' }
        else
          { s with rooms := dset s.rooms rid { room with players := players' } }
      else s

/-- Response of `get_game_state` (GET /game_state): the error strings are
"Game not found" and "Not in this game"; `success` carries the JSON
payload fields. -/
inductive StateResult where
  | gameNotFound
  | notInThisGame
  | success (game_id : String) (board : List (List String))
      (current_player : Nat) (winner : Option Winner)
      (player_num : Option Nat) (players : List String)
deriving DecidableEq, Repr

/-- `get_game_state` past the login check; `game_id?` is
`session.get('game_id')` and `now` is `time.time()`.  When the game is
over and its completion timestamp is more than 5 time units old, the
room, game and timestamp are deleted from the directories — but the
response for this very request is still built from the local `game`
reference and reports success. -/
def get_game_state (username : String) (game_id? : Option String)
    (now : Nat) (s : ServerState) : ServerState × StateResult :=
  match game_id? with
  | none => (s, .gameNotFound)
  | some gid =>
    match dget? s.games gid with
    | none => (s, .gameNotFound)
    | some game =>
      if !(game.players.any fun p => p.username == username) then
        (s, .notInThisGame)
      else
        let player_num := game.players.findIdx? fun p => p.username == username
        let s' :=
          if game.game_over &&
             (match dget? s.game_completion_times gid with
              | some t => decide (5 < now - t)
              | none => false) then
            { s with rooms := ddel s.rooms gid
                     games := ddel s.games gid
                     game_completion_times := ddel s.game_completion_times gid }
          else s
        (s', .success gid game.board game.current_player game.winner
              player_num (game.players.map Player.username))

/-! ### Session checks at the endpoints -/

/-- The gate of the page endpoints `/`, `/lobby` and `/stats`: reject
when the cookie has no username; when the username has a live entry in
`ACTIVE_SESSIONS`, reject unless it equals the cookie's `session_id`
(`none` models the `KeyError` when the cookie lacks a session id); when
the username has NO live entry, the request is accepted as-is. -/
def lobby_auth (username? session_id? : Option String)
    (active : List (String × String)) : Option Bool :=
  match username? with
  | none => some false
  | some u =>
    match dget? active u with
    | none => some true
    | some live =>
      match session_id? with
      | none => none
      | some sid => some (live == sid)

/-- The gate of the `/move` endpoint (and, with the obvious field
changes, of every other API endpoint): only presence of the cookie
fields is checked — `ACTIVE_SESSIONS` is never consulted. -/
def move_route_auth (username? game_id? : Option String) : Bool :=
  username?.isSome && game_id?.isSome

/-! ### The spec's wording: the 8 winning lines and the full board -/

/-- The 3 rows, 3 columns and 2 diagonals, as cell-coordinate lists. -/
def winningLines : List (List (Nat × Nat)) :=
  [[(0,0),(0,1),(0,2)], [(1,0),(1,1),(1,2)], [(2,0),(2,1),(2,2)],
   [(0,0),(1,0),(2,0)], [(0,1),(1,1),(2,1)], [(0,2),(1,2),(2,2)],
   [(0,0),(1,1),(2,2)], [(0,2),(1,1),(2,0)]]

/-- Every cell of the line `L` holds the mark `s`. -/
def lineFilled (b : List (List String)) (L : List (Nat × Nat)) (s : String) :
    Prop :=
  ∀ p ∈ L, cellD b p.1 p.2 = s

instance (b L s) : Decidable (lineFilled b L s) := by
  unfold lineFilled; infer_instance

/-- The mark `s` fills one of the 8 winning lines. -/
def fillsALine (b : List (List String)) (s : String) : Prop :=
  ∃ L ∈ winningLines, lineFilled b L s

instance (b s) : Decidable (fillsALine b s) := by
  unfold fillsALine; infer_instance

/-- All 9 cells are non-empty. -/
def allCellsFilled (b : List (List String)) : Prop :=
  ∀ i < 3, ∀ j < 3, cellD b i j ≠ ""

instance (b) : Decidable (allCellsFilled b) := by
  unfold allCellsFilled; infer_instance

lemma range_three : List.range 3 = [0, 1, 2] := rfl

/-- `check_winner` detects exactly the grids in which `s` fills one of
the 8 winning lines. -/
lemma check_winner_iff (b : List (List String)) (s : String) :
    check_winner b s = true ↔ fillsALine b s := by
  simp only [check_winner, fillsALine, winningLines, lineFilled, range_three,
    List.any_cons, List.any_nil, List.all_cons, List.all_nil,
    Bool.or_eq_true, Bool.and_eq_true, beq_iff_eq,
    List.exists_mem_cons_iff, List.forall_mem_cons, List.forall_mem_nil,
    List.not_mem_nil, false_or, or_false, and_true, false_implies,
    implies_true, false_and, exists_false, Bool.false_eq_true,
    Nat.reduceSub, Nat.sub_self, Nat.sub_zero]
  constructor
  · rintro ((((h | h) | (h | h) | (h | h)) | h) | h)
    exacts [Or.inl h,
      Or.inr (Or.inr (Or.inr (Or.inl h))),
      Or.inr (Or.inl h),
      Or.inr (Or.inr (Or.inr (Or.inr (Or.inl h)))),
      Or.inr (Or.inr (Or.inl h)),
      Or.inr (Or.inr (Or.inr (Or.inr (Or.inr (Or.inl h))))),
      Or.inr (Or.inr (Or.inr (Or.inr (Or.inr (Or.inr (Or.inl h)))))),
      Or.inr (Or.inr (Or.inr (Or.inr (Or.inr (Or.inr (Or.inr h))))))]
  · rintro (h | h | h | h | h | h | h | h)
    exacts [Or.inl (Or.inl (Or.inl (Or.inl h))),
      Or.inl (Or.inl (Or.inr (Or.inl (Or.inl h)))),
      Or.inl (Or.inl (Or.inr (Or.inr (Or.inl h)))),
      Or.inl (Or.inl (Or.inl (Or.inr h))),
      Or.inl (Or.inl (Or.inr (Or.inl (Or.inr h)))),
      Or.inl (Or.inl (Or.inr (Or.inr (Or.inr h)))),
      Or.inl (Or.inr h),
      Or.inr h]

/-- `boardFull` holds exactly when all 9 cells are non-empty. -/
lemma boardFull_iff (b : List (List String)) :
    boardFull b = true ↔ allCellsFilled b := by
  simp only [boardFull, allCellsFilled, range_three,
    List.all_cons, List.all_nil, Bool.and_eq_true, and_true,
    Bool.not_eq_true', beq_eq_false_iff_ne]
  constructor
  · rintro ⟨⟨a0, a1, a2⟩, ⟨b0, b1, b2⟩, ⟨c0, c1, c2⟩⟩ i hi j hj
    interval_cases i <;> interval_cases j <;> assumption
  · intro h
    refine ⟨⟨?_, ?_, ?_⟩, ⟨?_, ?_, ?_⟩, ⟨?_, ?_, ?_⟩⟩ <;>
      exact h _ (by omega) _ (by omega)

/-! ### Helper lemmas -/

lemma pyIdx_coe (len n : Nat) (h : n < len) : pyIdx len (n : Int) = some n := by
  simp only [pyIdx]
  have h0 : ¬ ((n : Int) < 0) := by omega
  rw [if_neg h0, if_pos (by omega)]
  simp

lemma wf_row_length {b : List (List String)} (hwf : wfBoard b) {i : Nat}
    (hi : i < 3) : ((b.get? i).getD []).length = 3 := by
  obtain ⟨hlen, hall⟩ := hwf
  have hib : i < b.length := by omega
  rw [List.get?_eq_get hib, Option.getD_some]
  exact hall _ (List.get_mem b i hib)

lemma cellD_set_self {b : List (List String)} {i j : Nat}
    (hi : i < b.length) (hj : j < ((b.get? i).getD []).length) (v : String) :
    cellD (b.set i (((b.get? i).getD []).set j v)) i j = v := by
  unfold cellD
  rw [List.get?_set_eq_of_lt _ (by simpa using hi), Option.getD_some,
    List.get?_set_eq_of_lt _ hj, Option.getD_some]

lemma find?_map_self {α : Type} (d : List (String × α)) (k : String) (v : α)
    (h : (d.find? fun p => p.1 == k).isSome = true) :
    (d.map fun p => if p.1 == k then (k, v) else p).find?
      (fun p => p.1 == k) = some (k, v) := by
  induction d with
  | nil => simp at h
  | cons p d ih =>
    by_cases hp : p.1 = k
    · rw [List.map_cons, if_pos (by simpa using hp),
        List.find?_cons_of_pos _ (by simp)]
    · rw [List.map_cons, if_neg (by simpa using hp),
        List.find?_cons_of_neg _ (by simpa using hp)]
      apply ih
      rwa [List.find?_cons_of_neg _ (by simpa using hp)] at h

lemma find?_map_ne {α : Type} (d : List (String × α)) (k k' : String) (v : α)
    (h : k' ≠ k) :
    (d.map fun p => if p.1 == k then (k, v) else p).find?
      (fun p => p.1 == k') = d.find? fun p => p.1 == k' := by
  induction d with
  | nil => rfl
  | cons p d ih =>
    by_cases hp : p.1 = k
    · have hk' : ¬ (k == k') = true := by
        simpa using fun e => h e.symm
      have hp' : ¬ (p.1 == k') = true := by
        simpa [hp] using fun e => h e.symm
      rw [List.map_cons, if_pos (by simpa using hp),
        List.find?_cons_of_neg _ (by simpa using hk'),
        List.find?_cons_of_neg _ (by simpa using hp'), ih]
    · rw [List.map_cons, if_neg (by simpa using hp)]
      by_cases hq : p.1 = k'
      · rw [List.find?_cons_of_pos _ (by simpa using hq),
          List.find?_cons_of_pos _ (by simpa using hq)]
      · rw [List.find?_cons_of_neg _ (by simpa using hq),
          List.find?_cons_of_neg _ (by simpa using hq), ih]

lemma dget?_dset_self {α : Type} (d : List (String × α)) (k : String) (v : α) :
    dget? (dset d k v) k = some v := by
  unfold dget? dset
  split
  · rename_i h
    rw [find?_map_self d k v h]
    rfl
  · rename_i h
    have hnone : d.find? (fun p => p.1 == k) = none := by
      cases hf : d.find? fun p => p.1 == k with
      | none => rfl
      | some q => exact absurd (by rw [hf]; rfl) h
    rw [List.find?_append, hnone, Option.none_or,
      List.find?_cons_of_pos _ (by simp)]
    rfl

lemma dget?_dset_ne {α : Type} (d : List (String × α)) (k k' : String) (v : α)
    (h : k' ≠ k) : dget? (dset d k v) k' = dget? d k' := by
  unfold dget? dset
  split
  · rw [find?_map_ne d k k' v h]
  · rw [List.find?_append, List.find?_cons_of_neg _ (by simpa using fun e => h e.symm),
      List.find?_nil, Option.or_none]

lemma dget?_ddel_self {α : Type} (d : List (String × α)) (k : String) :
    dget? (ddel d k) k = none := by
  unfold dget? ddel
  induction d with
  | nil => rfl
  | cons p d ih =>
    by_cases hp : p.1 = k
    · rw [List.filter_cons_of_neg (by simpa using hp)]
      exact ih
    · rw [List.filter_cons_of_pos (by simpa using hp),
        List.find?_cons_of_neg _ (by simpa using hp)]
      exact ih

lemma make_move_of_terminal {g : Game} (h : g.winner.isSome = true)
    (p : Nat) (r c : Int) : make_move g p r c = some (false, g, []) := by
  unfold make_move
  rw [h]
  rfl

lemma make_move_of_wrong_turn {g : Game} {p : Nat}
    (h : p ≠ g.current_player) (r c : Int) :
    make_move g p r c = some (false, g, []) := by
  unfold make_move
  have hb : (p == g.current_player) = false := by simpa using h
  rw [hb]
  cases hw : g.winner.isSome <;> rfl

/-- A move call that returns (rather than raising) from a live game
either keeps the game live and emits no stats notification, or ends it
and emits exactly the `update_stats` notification of the new state. -/
lemma make_move_cases {g : Game} {p : Nat} {r c : Int} {ok : Bool}
    {g' : Game} {evs : List StatEvent} (hw : g.winner = none)
    (h : make_move g p r c = some (ok, g', evs)) :
    (g'.winner = none ∧ evs = []) ∨
    (g'.winner.isSome = true ∧ evs = update_stats g') := by
  unfold make_move at h
  rw [hw] at h
  repeat' (first | split at h | dsimp only at h)
  all_goals
    try (simp only [Option.some.injEq, Prod.mk.injEq] at h
         obtain ⟨-, rfl, rfl⟩ := h)
  all_goals
    first
    | exact Option.noConfusion h
    | exact .inl ⟨rfl, rfl⟩
    | exact .inl ⟨hw, rfl⟩
    | exact .inr ⟨rfl, rfl⟩

/-- A sequence of `/move` requests against one game: each request calls
`TicTacToeGame.make_move`; a raised exception leaves the game unchanged
(the write happens only after the indexing that could raise has
succeeded).  Returns the final game state and all stats notifications
issued along the way. -/
def run_moves (g : Game) (ms : List (Nat × Int × Int)) :
    Game × List StatEvent :=
  match ms with
  | [] => (g, [])
  | (p, r, c) :: rest =>
    match make_move g p r c with
    | none => run_moves g rest
    | some (_, g', evs) =>
      let (gf, evs') := run_moves g' rest
      (gf, evs ++ evs')

/-- Once the game is terminal, any further move requests leave it
unchanged and emit no stats notifications. -/
lemma run_moves_terminal {g : Game} (h : g.winner.isSome = true)
    (ms : List (Nat × Int × Int)) : run_moves g ms = (g, []) := by
  induction ms with
  | nil => rfl
  | cons m rest ih =>
    obtain ⟨p, r, c⟩ := m
    rw [run_moves, make_move_of_terminal h]
    simp [ih]

/-- Over a whole request sequence started on a live game, stats
notifications are exactly the single `update_stats` batch of the final
state when the run ends terminal, and nothing otherwise. -/
lemma run_moves_events {g : Game} (hw : g.winner = none)
    (ms : List (Nat × Int × Int)) :
    (run_moves g ms).2 =
      if (run_moves g ms).1.winner.isSome then
        update_stats (run_moves g ms).1
      else [] := by
  induction ms generalizing g with
  | nil => simp [run_moves, hw]
  | cons m rest ih =>
    obtain ⟨p, r, c⟩ := m
    rw [run_moves]
    cases hm : make_move g p r c with
    | none => exact ih hw
    | some t =>
      obtain ⟨ok, g', evs⟩ := t
      rcases make_move_cases hw hm with ⟨hw', hevs⟩ | ⟨hw', hevs⟩
      · subst hevs
        simpa using ih hw'
      · subst hevs
        simp [run_moves_terminal hw' rest, hw']

/-- The evaluation of the Python expression `self.board[row][col]`
(`none` when it raises `IndexError`). -/
def lookupCell (b : List (List String)) (row col : Int) : Option String :=
  match pyIdx b.length row with
  | none => none
  | some i =>
    let rowList := (b.get? i).getD []
    match pyIdx rowList.length col with
    | none => none
    | some j => some ((rowList.get? j).getD "")
lemma pyIdx_none_of_ge (len : Nat) (i : Int) (h : (len : Int) ≤ i) :
    pyIdx len i = none := by
  simp only [pyIdx]
  rw [if_neg (by omega : ¬ i < 0)]
  exact if_neg (by omega)

lemma pyIdx_some_lt {len : Nat} {i : Int} {n : Nat}
    (h : pyIdx len i = some n) : n < len := by
  simp only [pyIdx] at h
  repeat' split at h
  all_goals
    first
    | (simp only [Option.some.injEq] at h; omega)
    | exact absurd h (by simp)

/-- Unfolding of `make_move` on an accepted move: live game, correct
turn, indexing succeeds, target cell empty. -/
lemma make_move_accepts {g : Game} {p : Nat} {row col : Int} {i j : Nat}
    (hw : g.winner = none) (hp : p = g.current_player)
    (hpr : pyIdx g.board.length row = some i)
    (hpc : pyIdx ((g.board.get? i).getD []).length col = some j)
    (hempty : (((g.board.get? i).getD []).get? j).getD "" = "") :
    make_move g p row col =
      (let symbol := if p == 0 then "X" else "O"
       let board' := g.board.set i (((g.board.get? i).getD []).set j symbol)
       if check_winner board' symbol then
         let g' := { g with board := board',
                            winner := some (.player p), game_over := true }
         some (true, g', update_stats g')
       else if boardFull board' then
         let g' := { g with board := board',
                            winner := some .draw, game_over := true }
         some (true, g', update_stats g')
       else
         some (true, { g with board := board',
                              current_player := 1 - g.current_player }, [])) := by
  subst hp
  unfold make_move
  rw [hw]
  rw [show ((none : Option Winner).isSome ||
    !(g.current_player == g.current_player)) = false by simp]
  rw [if_neg (by simp : ¬ ((false : Bool) = true))]
  rw [hpr]
  dsimp only
  rw [hpc]
  dsimp only
  rw [hempty]
  rw [if_neg (by simp : ¬ ((!("" == "")) = true))]
/-- A two-player game as produced by room creation plus join: "alice"
is slot 0, "bob" slot 1, empty board, player 0 to move. -/
def gAB : Game := (add_player (add_player (newGame "g1") "alice").1 "bob").1

/-! ### Claims -/

/-- C1: in an in-progress game, when the player to move plays an empty
in-bounds cell, `make_move` accepts; it writes the mover's mark into the
cell (X for slot 0, O for slot 1), then the outcome becomes `WON(slot)`
if the mover's mark now fills one of the 8 winning lines, else `DRAW` if
all 9 cells are non-empty, and otherwise the player-to-move index
becomes `1 - slot`. -/
theorem c1_accepted_move_outcome (g : Game) (row col : Nat)
    (hwf : wfBoard g.board) (hprog : g.winner = none)
    (hr : row < 3) (hc : col < 3)
    (hempty : cellD g.board row col = "") :
    ∃ g' evs, make_move g g.current_player (row : Int) (col : Int) =
        some (true, g', evs) ∧
      cellD g'.board row col =
        (if g.current_player == 0 then "X" else "O") ∧
      (if fillsALine g'.board (if g.current_player == 0 then "X" else "O")
       then g'.winner = some (.player g.current_player) ∧
         g'.game_over = true
       else if allCellsFilled g'.board then
         g'.winner = some .draw ∧ g'.game_over = true
       else
         g'.winner = none ∧
           g'.current_player = 1 - g.current_player) := by
  have hpr : pyIdx g.board.length (row : Int) = some row := by
    rw [hwf.1]; exact pyIdx_coe 3 row hr
  have hrowlen : ((g.board.get? row).getD []).length = 3 :=
    wf_row_length hwf hr
  have hpc : pyIdx ((g.board.get? row).getD []).length (col : Int) =
      some col := by
    rw [hrowlen]; exact pyIdx_coe 3 col hc
  have hm := make_move_accepts (p := g.current_player) hprog rfl hpr hpc hempty
  dsimp only at hm
  have hset : cellD (g.board.set row (((g.board.get? row).getD []).set col
      (if g.current_player == 0 then "X" else "O"))) row col =
      (if g.current_player == 0 then "X" else "O") :=
    cellD_set_self (by rw [hwf.1]; omega) (by rw [hrowlen]; omega) _
  by_cases hwin : check_winner (g.board.set row
      (((g.board.get? row).getD []).set col
        (if g.current_player == 0 then "X" else "O")))
      (if g.current_player == 0 then "X" else "O") = true
  · rw [if_pos hwin] at hm
    refine ⟨_, _, hm, hset, ?_⟩
    rw [if_pos ((check_winner_iff _ _).1 hwin)]
    exact ⟨rfl, rfl⟩
  · by_cases hfull : boardFull (g.board.set row
        (((g.board.get? row).getD []).set col
          (if g.current_player == 0 then "X" else "O"))) = true
    · rw [if_neg hwin, if_pos hfull] at hm
      refine ⟨_, _, hm, hset, ?_⟩
      rw [if_neg (fun hF => hwin ((check_winner_iff _ _).2 hF)),
        if_pos ((boardFull_iff _).1 hfull)]
      exact ⟨rfl, rfl⟩
    · rw [if_neg hwin, if_neg hfull] at hm
      refine ⟨_, _, hm, hset, ?_⟩
      rw [if_neg (fun hF => hwin ((check_winner_iff _ _).2 hF)),
        if_neg (fun hF => hfull ((boardFull_iff _).2 hF))]
      exact ⟨hprog, rfl⟩

/-- Witness for C1 at a concrete input: "alice" opens on cell (0,0). -/
theorem c1_witness :
    ∃ g' evs, make_move gAB gAB.current_player 0 0 =
        some (true, g', evs) ∧
      cellD g'.board 0 0 = (if gAB.current_player == 0 then "X" else "O") ∧
      (if fillsALine g'.board (if gAB.current_player == 0 then "X" else "O")
       then g'.winner = some (.player gAB.current_player) ∧
         g'.game_over = true
       else if allCellsFilled g'.board then
         g'.winner = some .draw ∧ g'.game_over = true
       else
         g'.winner = none ∧
           g'.current_player = 1 - gAB.current_player) :=
  c1_accepted_move_outcome gAB 0 0 (by decide) (by decide) (by decide)
    (by decide) (by decide)

/-- C2: a move rejected because the game is already over, the caller is
not the player to move, or the target cell is occupied, returns the
rejection (`False`) and leaves the entire game state — board,
player-to-move index and winner — unchanged, issuing no stats
notification. -/
theorem c2_rejected_move_leaves_state_unchanged (g : Game) (p : Nat)
    (row col : Int)
    (hrej : g.winner.isSome = true ∨ p ≠ g.current_player ∨
      (∃ v, lookupCell g.board row col = some v ∧ v ≠ "")) :
    make_move g p row col = some (false, g, []) := by
  rcases hrej with h | h | ⟨v, hv, hne⟩
  · exact make_move_of_terminal h p row col
  · exact make_move_of_wrong_turn h row col
  · by_cases ht : g.winner.isSome = true
    · exact make_move_of_terminal ht p row col
    · by_cases hp : p = g.current_player
      · have hb : (p == g.current_player) = true := by simpa using hp
        have hw : g.winner.isSome = false := by simpa using ht
        unfold make_move
        rw [hw, hb]
        rw [if_neg (by simp : ¬ (((false : Bool) || !(true : Bool)) = true))]
        unfold lookupCell at hv
        cases heqr : pyIdx g.board.length row with
        | none => rw [heqr] at hv; exact absurd hv (by simp)
        | some i =>
          rw [heqr] at hv
          dsimp only at hv
          dsimp only
          cases heqc : pyIdx ((g.board.get? i).getD []).length col with
          | none => rw [heqc] at hv; exact absurd hv (by simp)
          | some j =>
            rw [heqc] at hv
            dsimp only at hv
            dsimp only
            have hvv : (((g.board.get? i).getD []).get? j).getD "" = v := by
              simpa using hv
            rw [hvv]
            rw [if_pos (by simpa using hne)]
      · exact make_move_of_wrong_turn hp row col

/-- Witness for C2: "bob" (slot 1) tries to move first. -/
theorem c2_witness : make_move gAB 1 0 0 = some (false, gAB, []) :=
  c2_rejected_move_leaves_state_unchanged gAB 1 0 0
    (Or.inr (Or.inl (by decide)))
/-- C3: for each of the 8 winning lines (3 rows, 3 columns, 2
diagonals), on every grid in which that line is filled with a mark,
`check_winner` returns true for that mark; and on the same grid it
returns false for the opposing mark provided that mark fills no line. -/
theorem c3_check_winner_detects_lines (b : List (List String))
    (s t : String) (L : List (Nat × Nat)) (hL : L ∈ winningLines)
    (hfill : lineFilled b L s)
    (hopp : ∀ M ∈ winningLines, ¬ lineFilled b M t) :
    check_winner b s = true ∧ check_winner b t = false := by
  refine ⟨(check_winner_iff b s).2 ⟨L, hL, hfill⟩, ?_⟩
  cases hc : check_winner b t
  · rfl
  · obtain ⟨M, hM, hMf⟩ := (check_winner_iff b t).1 hc
    exact absurd hMf (hopp M hM)

/-- Witness for C3: top row of X, two O marks elsewhere. -/
theorem c3_witness :
    check_winner [["X","X","X"],["O","O",""],["","",""]] "X" = true ∧
    check_winner [["X","X","X"],["O","O",""],["","",""]] "O" = false :=
  c3_check_winner_detects_lines _ "X" "O" [(0,0),(0,1),(0,2)]
    (by decide) (by decide) (by decide)

/-- C4: the stats notification is issued exactly once per game — never
once the game is already terminal (conjunct 1), over any request
sequence from a live game exactly the single `update_stats` batch of the
final state when that state is terminal and nothing otherwise
(conjunct 2), and that batch credits a win to the winner's identity and
a loss to the other on `WON`, and a draw to both on `DRAW`
(conjunct 3). -/
theorem c4_stats_notified_exactly_once :
    (∀ (g : Game) (ms : List (Nat × Int × Int)), g.winner.isSome = true →
      run_moves g ms = (g, [])) ∧
    (∀ (g : Game) (ms : List (Nat × Int × Int)), g.winner = none →
      (run_moves g ms).2 =
        if (run_moves g ms).1.winner.isSome then
          update_stats (run_moves g ms).1
        else []) ∧
    (∀ (g : Game) (u0 u1 : String), g.players = [⟨0, u0⟩, ⟨1, u1⟩] →
      (g.winner = some (.player 0) →
        update_stats g = [⟨u0, "win"⟩, ⟨u1, "loss"⟩]) ∧
      (g.winner = some (.player 1) →
        update_stats g = [⟨u0, "loss"⟩, ⟨u1, "win"⟩]) ∧
      (g.winner = some .draw →
        update_stats g = [⟨u0, "draw"⟩, ⟨u1, "draw"⟩])) := by
  refine ⟨fun g ms h => run_moves_terminal h ms,
    fun g ms h => run_moves_events h ms,
    fun g u0 u1 hp => ⟨fun hw => ?_, fun hw => ?_, fun hw => ?_⟩⟩ <;>
    simp [update_stats, hp, hw]

/-- Witness for C4: a full playthrough in which "alice" completes the
top row; "bob" then tries one more move. -/
theorem c4_witness :
    (run_moves gAB [(0,0,0),(1,1,0),(0,0,1),(1,1,1),(0,0,2),(1,2,2)]).2 =
      if (run_moves gAB
          [(0,0,0),(1,1,0),(0,0,1),(1,1,1),(0,0,2),(1,2,2)]).1.winner.isSome
      then update_stats (run_moves gAB
          [(0,0,0),(1,1,0),(0,0,1),(1,1,1),(0,0,2),(1,2,2)]).1
      else [] :=
  c4_stats_notified_exactly_once.2.1 gAB
    [(0,0,0),(1,1,0),(0,0,1),(1,1,1),(0,0,2),(1,2,2)] (by decide)

/-- C10: `make_move` performs no bounds check: with cell (2,2) empty and
player 0 to move, the call with row = -1, col = -1 is accepted and
mutates the real cell (2,2) by Python index wrap-around; and whenever
the game is live, it is the caller's turn and row or col exceeds 2, the
call raises an exception (modelled `none`) instead of returning one of
the three specified rejections. -/
theorem c10_no_bounds_check :
    (∃ g', make_move gAB 0 (-1) (-1) = some (true, g', []) ∧
      cellD g'.board 2 2 = "X") ∧
    (∀ (g : Game) (p : Nat) (row col : Int), wfBoard g.board →
      g.winner = none → p = g.current_player → (2 < row ∨ 2 < col) →
      make_move g p row col = none) := by
  constructor
  · exact Exists.intro
      { gAB with board := [["","",""],["","",""],["","","X"]]
                 current_player := 1 }
      ⟨by decide, by decide⟩
  · rintro g p row col hwf hw hp hoob
    have hb : (p == g.current_player) = true := by simpa using hp
    unfold make_move
    rw [hw, hb]
    rw [show ((none : Option Winner).isSome || !(true : Bool)) = false
      by simp]
    rw [if_neg (by simp : ¬ ((false : Bool) = true))]
    rcases hoob with hr | hc
    · rw [show pyIdx g.board.length row = none from
        pyIdx_none_of_ge _ _ (by rw [hwf.1]; omega)]
    · cases heqr : pyIdx g.board.length row with
      | none => rfl
      | some i =>
        dsimp only
        have hi : i < g.board.length := pyIdx_some_lt heqr
        have hrl : ((g.board.get? i).getD []).length = 3 :=
          wf_row_length hwf (by have := hwf.1; omega)
        rw [show pyIdx ((g.board.get? i).getD []).length col = none from
          pyIdx_none_of_ge _ _ (by rw [hrl]; omega)]

/-- Witness for C10's universally quantified part: row 3 raises. -/
theorem c10_witness : make_move gAB 0 3 0 = none :=
  c10_no_bounds_check.2 gAB 0 3 0 (by decide) (by decide) (by decide)
    (by decide)
/-! ### Concrete server scenarios -/

/-- The server before any request. -/
def emptyState : ServerState :=
  { games := [], rooms := [], game_completion_times := [] }

/-- The finished game of room g1: "alice" completed the top row. -/
def gDone : Game :=
  { gAB with board := [["X","X","X"], ["O","O",""], ["","",""]]
             winner := some (.player 0)
             game_over := true }

/-- Room g1 while its game is being played. -/
def roomDone : Room :=
  { creator := "alice", players := ["alice", "bob"], status := "playing"
    created_at := "" }

/-- Server state after g1 finished at time 0. -/
def s5 : ServerState :=
  { games := [("g1", gDone)], rooms := [("g1", roomDone)]
    game_completion_times := [("g1", 0)] }

/-- C5 counterexample: the poll at time 6 — after the 5-unit grace
period that began at completion time 0 — still returns the room's state
(success), not NotFound; it only empties the directories, so NotFound
starts with the next poll. -/
theorem c5_counterexample :
    (get_game_state "alice" (some "g1") 6 s5).2 =
      .success "g1" gDone.board gDone.current_player gDone.winner
        (some 0) ["alice", "bob"] ∧
    (get_game_state "alice" (some "g1") 6 s5).2 ≠ .gameNotFound ∧
    (get_game_state "alice" (some "g1") 6 s5).1.games = [] := by decide

/-- Scenario states for C6: alice creates room r1, bob joins it, then
alice leaves (the room reverts to WAITING but the game keeps both bound
player slots). -/
def s6a : ServerState := (create_room "alice" "r1" "" emptyState).1

def s6b : ServerState :=
  ((join_room "bob" "r1" s6a).getD (emptyState, .roomNotFound)).1

def s6c : ServerState := leave_room "alice" (some "r1") s6b

/-- C6 counterexample: "carol" joins the WAITING room r1 passing every
guard, yet is admitted with `player_num = None` rather than slot 1,
because the room's game still holds two bound players. -/
theorem c6_counterexample :
    (dget? s6c.rooms "r1").map Room.status = some "waiting" ∧
    ((dget? s6c.rooms "r1").map fun r => r.players.contains "carol") =
      some false ∧
    (join_room "carol" "r1" s6c).map Prod.snd =
      some (.success "r1" none) := by decide

/-- States for C8: alice creates room r1 and then room r2. -/
def s8a : ServerState := (create_room "alice" "r1" "" emptyState).1

def s8b : ServerState := (create_room "alice" "r2" "" s8a).1

/-- C8 counterexample: "alice", already the sole member of the open
(WAITING) room r1, calls create_room again; the call succeeds — there
is no AlreadyInRoom check — and alice is then a member of two open
rooms at once. -/
theorem c8_counterexample :
    (create_room "alice" "r2" "" s8a).2 = ("r2", 0) ∧
    ((dget? s8b.rooms "r1").map fun r =>
      (r.players.contains "alice", r.status)) = some (true, "waiting") ∧
    ((dget? s8b.rooms "r2").map fun r =>
      (r.players.contains "alice", r.status)) = some (true, "waiting") := by
  decide

/-- C9 counterexample: the /move endpoint's gate accepts a session
cookie without ever consulting the live-token registry (here "alice"
could present any stale token), and the /lobby gate accepts a presented
session id when no live token exists for the identity. -/
theorem c9_counterexample :
    move_route_auth (some "alice") (some "g1") = true ∧
    lobby_auth (some "alice") (some "stale") [] = some true := by decide
/-- C8 (amended): create_room performs no already-in-room check: for any
prior state it returns success with slot 0, installs a fresh WAITING
room whose only member is the caller, and leaves every other room's
entry unchanged — so an identity already in an open room simply ends up
in two open rooms. -/
theorem c8_create_room_never_fails (username rid created : String)
    (s : ServerState) :
    (create_room username rid created s).2 = (rid, 0) ∧
    dget? (create_room username rid created s).1.rooms rid =
      some { creator := username, players := [username]
             status := "waiting", created_at := created } ∧
    ∀ rid', rid' ≠ rid →
      dget? (create_room username rid created s).1.rooms rid' =
        dget? s.rooms rid' := by
  exact ⟨rfl, dget?_dset_self s.rooms rid _,
    fun rid' h => dget?_dset_ne s.rooms rid rid' _ h⟩

/-- Witness for C8 (amended): alice's second room leaves r1's entry
untouched. -/
theorem c8_witness :
    dget? (create_room "alice" "r2" "" s8a).1.rooms "r1" =
      dget? s8a.rooms "r1" :=
  (c8_create_room_never_fails "alice" "r2" "" s8a).2.2 "r1" (by decide)

/-- C9 (amended): only the page endpoints (/, /lobby, /stats) compare
the cookie's session id with the identity's live token — and even they
accept whenever no live token is registered for the identity; the API
endpoints such as /move check only that the cookie carries the required
fields and never consult the live-token registry, so a stale session is
not rejected there. -/
theorem c9_session_checks :
    (∀ (sid : Option String) (active : List (String × String)),
      lobby_auth none sid active = some false) ∧
    (∀ (u : String) (sid : Option String)
        (active : List (String × String)), dget? active u = none →
      lobby_auth (some u) sid active = some true) ∧
    (∀ (u sid live : String) (active : List (String × String)),
      dget? active u = some live →
      lobby_auth (some u) (some sid) active = some (live == sid)) ∧
    (∀ (u g : Option String), move_route_auth u g =
      (u.isSome && g.isSome)) := by
  refine ⟨fun sid active => rfl, fun u sid active h => ?_,
    fun u sid live active h => ?_, fun u g => rfl⟩
  · unfold lobby_auth
    dsimp only
    rw [h]
  · unfold lobby_auth
    dsimp only
    rw [h]

/-- Witness for C9 (amended): lobby accepts alice's stale cookie when no
live token exists. -/
theorem c9_witness :
    lobby_auth (some "alice") (some "anything") [("bob", "t")] =
      some true :=
  c9_session_checks.2.1 "alice" (some "anything") [("bob", "t")]
    (by decide)
/-- C6 (amended): join_room fails with RoomNotFound when the id is not
in the directory, RoomNotWaiting when the room is not WAITING, and
AlreadyMember when the identity is already a member; otherwise it adds
the identity to the member list and transitions the room WAITING →
PLAYING, returning as slot whatever `add_player` yields on the room's
game — `some 1` exactly when the game holds one bound player (the
normal case), but `None` when it already holds two (reachable after a
leave, which never unbinds game slots). -/
theorem c6_join_room_behaviour (username rid : String) (s : ServerState) :
    (dget? s.rooms rid = none →
      join_room username rid s = some (s, .roomNotFound)) ∧
    (∀ room, dget? s.rooms rid = some room → room.status ≠ "waiting" →
      join_room username rid s = some (s, .roomNotWaiting)) ∧
    (∀ room, dget? s.rooms rid = some room → room.status = "waiting" →
      room.players.contains username = true →
      join_room username rid s = some (s, .alreadyMember)) ∧
    (∀ room game, dget? s.rooms rid = some room →
      room.status = "waiting" → room.players.contains username = false →
      dget? s.games rid = some game →
      join_room username rid s =
        some ({ s with
            rooms := dset s.rooms rid
              { room with players := room.players ++ [username]
                          status := "playing" }
            games := dset s.games rid (add_player game username).1 },
          .success rid (add_player game username).2) ∧
      (game.players.length = 1 →
        (add_player game username).2 = some 1)) := by
  refine ⟨fun h => ?_, fun room hr hst => ?_, fun room hr hst hmem => ?_,
    fun room game hr hst hmem hg => ⟨?_, fun hlen => ?_⟩⟩
  · unfold join_room
    rw [h]
  · unfold join_room
    rw [hr]
    dsimp only
    rw [if_pos (by simpa using hst)]
  · unfold join_room
    rw [hr]
    dsimp only
    rw [if_neg (by simp [hst]), if_pos hmem]
  · unfold join_room
    rw [hr]
    dsimp only
    rw [if_neg (by simp [hst]), if_neg (by rw [hmem]; simp), hg]
  · unfold add_player
    rw [if_pos (by omega), hlen]

/-- Witness for C6 (amended): bob joining alice's fresh room r1 gets
slot 1 and the room becomes PLAYING. -/
theorem c6_witness :
    join_room "bob" "r1" s6a =
      some ({ s6a with
          rooms := dset s6a.rooms "r1"
            { creator := "alice", players := ["alice", "bob"]
              status := "playing", created_at := "" }
          games := dset s6a.games "r1"
            (add_player (add_player (newGame "r1") "alice").1 "bob").1 },
        .success "r1" (add_player
          (add_player (newGame "r1") "alice").1 "bob").2) :=
  ((c6_join_room_behaviour "bob" "r1" s6a).2.2.2
    { creator := "alice", players := ["alice"], status := "waiting"
      created_at := "" }
    (add_player (newGame "r1") "alice").1
    (by decide) (by decide) (by decide) (by decide)).1

/-- C7: a member leaving a room reverts it to WAITING (keeping the one
remaining member) when membership drops from 2 to 1, and deletes the
room and its game from the directories immediately — with no condition
on the game's outcome — when membership drops from 1 to 0. -/
theorem c7_leave_room_transitions (s : ServerState) (username rid : String)
    (room : Room) (hr : dget? s.rooms rid = some room)
    (hmem : username ∈ room.players) :
    (room.players.length = 2 →
      leave_room username (some rid) s =
        { s with rooms := dset s.rooms rid ({ room with
            players := room.players.erase username
            status := "waiting" }) } ∧
      (room.players.erase username).length = 1) ∧
    (room.players.length = 1 →
      leave_room username (some rid) s =
        { s with rooms := ddel s.rooms rid
                 games := ddel s.games rid }) := by
  have herase : (room.players.erase username).length =
      room.players.length - 1 := List.length_erase_of_mem hmem
  refine ⟨fun h2 => ⟨?_, by omega⟩, fun h1 => ?_⟩
  · unfold leave_room
    dsimp only
    rw [hr]
    dsimp only
    rw [if_pos (by simpa using hmem)]
    rw [if_neg (by omega), if_pos (by omega)]
  · unfold leave_room
    dsimp only
    rw [hr]
    dsimp only
    rw [if_pos (by simpa using hmem)]
    rw [if_pos (by omega)]

/-- Witness for C7: the sole remaining member "bob" leaves room r1 of
state s6c; the room and game disappear. -/
theorem c7_witness :
    leave_room "bob" (some "r1") s6c =
      { s6c with rooms := ddel s6c.rooms "r1"
                 games := ddel s6c.games "r1" } :=
  (c7_leave_room_transitions s6c "bob" "r1"
    { creator := "alice", players := ["bob"], status := "waiting"
      created_at := "" }
    (by decide) (by decide)).2 (by decide)
/-- C5 (amended): a member's poll at any time up to completion + 5
returns the room's state and leaves the directories untouched; the
first poll arriving after the grace period still returns the room's
state but removes the room, game and completion timestamp from the
directories, and every poll from then on returns NotFound. -/
theorem c5_snapshot_and_cleanup (s : ServerState) (username gid : String)
    (game : Game) (t now : Nat)
    (hg : dget? s.games gid = some game)
    (hmem : (game.players.any fun p => p.username == username) = true)
    (hover : game.game_over = true)
    (ht : dget? s.game_completion_times gid = some t) :
    (now ≤ t + 5 →
      get_game_state username (some gid) now s =
        (s, .success gid game.board game.current_player game.winner
          (game.players.findIdx? fun p => p.username == username)
          (game.players.map Player.username))) ∧
    (t + 5 < now →
      (get_game_state username (some gid) now s).2 =
        .success gid game.board game.current_player game.winner
          (game.players.findIdx? fun p => p.username == username)
          (game.players.map Player.username) ∧
      ∀ (username' : String) (now' : Nat),
        (get_game_state username' (some gid) now'
          (get_game_state username (some gid) now s).1).2 =
          .gameNotFound) := by
  have hbody : ∀ now₀ : Nat, get_game_state username (some gid) now₀ s =
      (if game.game_over && decide (5 < now₀ - t) then
        { s with rooms := ddel s.rooms gid
                 games := ddel s.games gid
                 game_completion_times := ddel s.game_completion_times gid }
       else s,
       .success gid game.board game.current_player game.winner
        (game.players.findIdx? fun p => p.username == username)
        (game.players.map Player.username)) := by
    intro now₀
    unfold get_game_state
    dsimp only
    rw [hg]
    dsimp only
    rw [hmem]
    rw [if_neg (by simp : ¬ ((!(true : Bool)) = true))]
    rw [ht]
  constructor
  · intro hle
    rw [hbody now]
    rw [show (game.game_over && decide (5 < now - t)) = false by
      rw [decide_eq_false (by omega : ¬ 5 < now - t)]
      simp]
    rw [if_neg (by simp : ¬ ((false : Bool) = true))]
  · intro hgt
    have hcond : (game.game_over && decide (5 < now - t)) = true := by
      rw [hover, decide_eq_true (by omega : 5 < now - t)]
      simp
    refine ⟨?_, fun username' now' => ?_⟩
    · rw [hbody now]
    · rw [hbody now, hcond]
      rw [if_pos rfl]
      unfold get_game_state
      dsimp only
      rw [show dget? (ddel s.games gid) gid = none from
        dget?_ddel_self s.games gid]

/-- Witness for C5 (amended): polling s5 at time 4 returns the room's
state unchanged. -/
theorem c5_witness :
    get_game_state "alice" (some "g1") 4 s5 =
      (s5, .success "g1" gDone.board gDone.current_player gDone.winner
        (gDone.players.findIdx? fun p => p.username == "alice")
        (gDone.players.map Player.username)) :=
  (c5_snapshot_and_cleanup s5 "alice" "g1" gDone 0 4 (by decide)
    (by decide) (by decide) (by decide)).1 (by omega)
end TicTacToe
